import Mathlib

/-!
Verification of the pattern-recognition and alpha-signal engines of the
cryptodetector repository (`app/services/pattern_recognition.py` and
`app/services/alpha_signals.py`).

Numeric model: Python/NumPy floating-point values are modelled by exact
rationals (`ℚ`).  Divisions that NumPy performs on data-dependent
denominators follow IEEE-754 semantics (a zero denominator yields ±inf or
NaN, which then flows into a comparison); these are modelled exactly by the
`fdivLT` / `fdivGT` / `fdivAbsGT` helpers below, which spell out the result
of the comparison when the denominator is zero.  Python's `round` (used via
`int(round(x))`) rounds half to even; `pyRound` models it.
-/

namespace CryptoDetector

/-- IEEE-style comparison `num / den < c` for finite `num`, `c` and a
denominator that may be zero (NumPy float division by +0 yields +inf, -inf
or NaN, never an exception). -/
def fdivLT (num den c : ℚ) : Bool :=
  if den = 0 then decide (num < 0) else decide (num / den < c)

/-- IEEE-style comparison `num / den > c` for finite `num`, `c` and a
denominator that may be zero. -/
def fdivGT (num den c : ℚ) : Bool :=
  if den = 0 then decide (0 < num) else decide (c < num / den)

/-- IEEE-style comparison `|num / den| > c` for finite `num`, `c` and a
denominator that may be zero. -/
def fdivAbsGT (num den c : ℚ) : Bool :=
  if den = 0 then decide (num ≠ 0) else decide (c < |num / den|)

/-- Python's `round` on a real value: round half to even (banker's
rounding), as used by `int(round(x))` in the scoring code. -/
def pyRound (q : ℚ) : ℤ :=
  let f : ℤ := ⌊q⌋
  let r : ℚ := q - f
  if r < 1/2 then f
  else if 1/2 < r then f + 1
  else if f % 2 = 0 then f else f + 1

/-- Sum of a list of rationals. -/
def sumL (l : List ℚ) : ℚ := l.foldr (· + ·) 0

/-- Maximum of a list of rationals (`0` on the empty list; every use site
passes a nonempty list, mirroring pandas `.max()`). -/
def listMax (l : List ℚ) : ℚ :=
  match l with
  | [] => 0
  | x :: xs => xs.foldr max x

/-- Minimum of a list of rationals (`0` on the empty list). -/
def listMin (l : List ℚ) : ℚ :=
  match l with
  | [] => 0
  | x :: xs => xs.foldr min x

/-- Least-squares slope of `np.polyfit(arange(n), ys, 1)` for `ys` of
length `n` (exact normal-equation solution; `0` when the system is
degenerate, which matches NumPy's minimal-norm answer for `n = 1`). -/
def slopeAt (ys : List ℚ) : ℚ :=
  let n : ℚ := ys.length
  let xs : List ℚ := (List.range ys.length).map (fun i => (i : ℚ))
  let sx := sumL xs
  let sy := sumL ys
  let sxy := sumL (List.zipWith (· * ·) xs ys)
  let sxx := sumL (xs.map (fun x => x * x))
  let d := n * sxx - sx * sx
  if d = 0 then 0 else (n * sxy - sx * sy) / d

/-- Least-squares slope over explicit `(index, value)` points, as computed
by `PatternRecognition._calculate_slope` (which returns `0` for fewer than
two points). -/
def slopePts (pts : List (ℕ × ℚ)) : ℚ :=
  if pts.length < 2 then 0 else
  let n : ℚ := pts.length
  let xs : List ℚ := pts.map (fun p => (p.1 : ℚ))
  let ys : List ℚ := pts.map (fun p => p.2)
  let sx := sumL xs
  let sy := sumL ys
  let sxy := sumL (List.zipWith (· * ·) xs ys)
  let sxx := sumL (xs.map (fun x => x * x))
  let d := n * sxx - sx * sx
  if d = 0 then 0 else (n * sxy - sx * sy) / d

/-- Leading (quadratic) coefficient of `np.polyfit(arange(n), ys, 2)`:
exact Cramer solution of the normal equations (`0` on a degenerate system,
unreachable at the use sites, which always pass `n ≥ 5`). -/
def quadA (ys : List ℚ) : ℚ :=
  let n := ys.length
  let xs : List ℚ := (List.range n).map (fun i => (i : ℚ))
  let s0 : ℚ := n
  let s1 := sumL xs
  let s2 := sumL (xs.map (fun x => x * x))
  let s3 := sumL (xs.map (fun x => x * x * x))
  let s4 := sumL (xs.map (fun x => x * x * x * x))
  let t0 := sumL ys
  let t1 := sumL (List.zipWith (· * ·) xs ys)
  let t2 := sumL (List.zipWith (fun x y => x * x * y) xs ys)
  let det := s4 * (s2 * s0 - s1 * s1) - s3 * (s3 * s0 - s1 * s2) + s2 * (s3 * s1 - s2 * s2)
  if det = 0 then 0 else
  (t2 * (s2 * s0 - s1 * s1) - s3 * (t1 * s0 - s1 * t0) + s2 * (t1 * s1 - s2 * t0)) / det

/-- One OHLCV bar (`open` is a Lean keyword, hence `open_`). -/
structure Bar where
  open_ : ℚ
  high : ℚ
  low : ℚ
  close : ℚ
  deriving Inhabited, DecidableEq, Repr

/-- The `high` column of the frame. -/
def highs (df : List Bar) : List ℚ := df.map (fun b => b.high)

/-- The `low` column of the frame. -/
def lows (df : List Bar) : List ℚ := df.map (fun b => b.low)

/-- The `close` column of the frame. -/
def closes (df : List Bar) : List ℚ := df.map (fun b => b.close)

/-- Python slice `xs[a:b]` for `0 ≤ a ≤ b` (the only shape the matchers
use). -/
def pySlice (xs : List Bar) (a b : ℕ) : List Bar := (xs.drop a).take (b - a)

/-- Python slice on a rational series. -/
def pySliceQ (xs : List ℚ) (a b : ℕ) : List ℚ := (xs.drop a).take (b - a)

/-! ## Extremum finder

`PatternRecognition._find_peaks` calls
`scipy.signal.argrelextrema(data.values, np.greater, order=order)` whose
default boundary mode is `clip`: for every shift `s ∈ 1..order` the
comparison indices `i+s` and `i-s` are clipped into `[0, n-1]`.  A point is
a peak iff every one of those (clipped) comparisons is strictly greater.
`scipy` raises `ValueError` for `order < 1`; the bare `except` in
`_find_peaks` swallows it and returns `[]`. -/

/-- Is index `i` a relative extremum of `data` under comparator `>`
(`argrelextrema` with `np.greater`, boundary mode `clip`)? -/
def isPeakAt (data : List ℚ) (order : ℕ) (i : ℕ) : Bool :=
  (List.range order).all fun k =>
    decide (data.getD (min (i + (k+1)) (data.length - 1)) 0 < data.getD i 0) &&
    decide (data.getD (i - (k+1)) 0 < data.getD i 0)

/-- Is index `i` a relative extremum of `data` under comparator `<`
(`argrelextrema` with `np.less`, boundary mode `clip`)? -/
def isTroughAt (data : List ℚ) (order : ℕ) (i : ℕ) : Bool :=
  (List.range order).all fun k =>
    decide (data.getD i 0 < data.getD (min (i + (k+1)) (data.length - 1)) 0) &&
    decide (data.getD i 0 < data.getD (i - (k+1)) 0)

/-- `argrelextrema(data, np.greater, order=order)[0]`, for `order ≥ 1`. -/
def argrelGreater (data : List ℚ) (order : ℕ) : List ℕ :=
  (List.range data.length).filter (isPeakAt data order)

/-- `argrelextrema(data, np.less, order=order)[0]`, for `order ≥ 1`. -/
def argrelLess (data : List ℚ) (order : ℕ) : List ℕ :=
  (List.range data.length).filter (isTroughAt data order)

/-- `PatternRecognition._find_peaks`: returns `[]` for `order < 1`
(scipy raises `ValueError`, swallowed by the bare `except`). -/
def find_peaks (data : List ℚ) (order : ℤ) : List ℕ :=
  if order < 1 then [] else argrelGreater data order.toNat

/-- `PatternRecognition._find_troughs`: returns `[]` for `order < 1`
(scipy raises `ValueError`, swallowed by the bare `except`). -/
def find_troughs (data : List ℚ) (order : ℤ) : List ℕ :=
  if order < 1 then [] else argrelLess data order.toNat

/-! ## Geometric pattern matchers -/

/-- Detection record of `find_double_top`. -/
structure DoubleTopRec where
  first_top : ℕ
  second_top : ℕ
  price : ℚ
  difference : ℚ
  deriving DecidableEq, Repr

/-- Detection record of `find_double_bottom`. -/
structure DoubleBottomRec where
  first_bottom : ℕ
  second_bottom : ℕ
  price : ℚ
  difference : ℚ
  deriving DecidableEq, Repr

/-- `PatternRecognition.find_double_top`.  The `try/except` around the loop
body can only be triggered by the float division (which NumPy turns into
inf/NaN rather than an exception); `fdivLT` reproduces the comparison
exactly. -/
def find_double_top (df : List Bar) (threshold : ℚ) : List DoubleTopRec :=
  if df.length < 10 then [] else
  let hs := highs df
  let peaks := find_peaks hs 5
  if peaks.length < 2 then [] else
  (List.range (peaks.length - 1)).filterMap fun i =>
    let p1 := hs.getD (peaks.getD i 0) 0
    let p2 := hs.getD (peaks.getD (i+1) 0) 0
    if fdivLT |p1 - p2| p1 threshold ∧ 5 ≤ peaks.getD (i+1) 0 - peaks.getD i 0
    then some ⟨peaks.getD i 0, peaks.getD (i+1) 0, p1, |p1 - p2| / p1⟩
    else none

/-- `PatternRecognition.find_double_bottom`. -/
def find_double_bottom (df : List Bar) (threshold : ℚ) : List DoubleBottomRec :=
  if df.length < 10 then [] else
  let ls := lows df
  let troughs := find_troughs ls 5
  if troughs.length < 2 then [] else
  (List.range (troughs.length - 1)).filterMap fun i =>
    let t1 := ls.getD (troughs.getD i 0) 0
    let t2 := ls.getD (troughs.getD (i+1) 0) 0
    if fdivLT |t1 - t2| t1 threshold ∧ 5 ≤ troughs.getD (i+1) 0 - troughs.getD i 0
    then some ⟨troughs.getD i 0, troughs.getD (i+1) 0, t1, |t1 - t2| / t1⟩
    else none

/-- Detection record of `find_head_and_shoulders`. -/
structure HSRec where
  left_shoulder : ℕ
  head : ℕ
  right_shoulder : ℕ
  shoulder_price : ℚ
  deriving DecidableEq, Repr

/-- `PatternRecognition.find_head_and_shoulders`. -/
def find_head_and_shoulders (df : List Bar) (threshold : ℚ) : List HSRec :=
  if df.length < 15 then [] else
  let hs := highs df
  let peaks := find_peaks hs 5
  if peaks.length < 3 then [] else
  (List.range (peaks.length - 2)).filterMap fun i =>
    let i0 := peaks.getD i 0
    let i1 := peaks.getD (i+1) 0
    let i2 := peaks.getD (i+2) 0
    let l := hs.getD i0 0
    let h := hs.getD i1 0
    let r := hs.getD i2 0
    if l < h ∧ r < h ∧ fdivLT |l - r| l threshold ∧ 5 ≤ i1 - i0
    then some ⟨i0, i1, i2, (l + r) / 2⟩ else none

/-- Detection record of `find_inverse_head_shoulders`. -/
structure InvHSRec where
  left_shoulder : ℕ
  head : ℕ
  right_shoulder : ℕ
  type : String
  deriving DecidableEq, Repr

/-- `PatternRecognition.find_inverse_head_shoulders` (note: unlike the peak
variant it checks no bar-separation condition). -/
def find_inverse_head_shoulders (df : List Bar) (threshold : ℚ) : List InvHSRec :=
  if df.length < 15 then [] else
  let ls := lows df
  let troughs := find_troughs ls 5
  if troughs.length < 3 then [] else
  (List.range (troughs.length - 2)).filterMap fun i =>
    let i0 := troughs.getD i 0
    let i1 := troughs.getD (i+1) 0
    let i2 := troughs.getD (i+2) 0
    let l := ls.getD i0 0
    let h := ls.getD i1 0
    let r := ls.getD i2 0
    if h < l ∧ h < r ∧ fdivLT |l - r| l threshold
    then some ⟨i0, i1, i2, "inverse_head_shoulders"⟩ else none

/-- Detection record of `find_triple_top`. -/
structure TripleTopRec where
  peaks : List ℕ
  price : ℚ
  deriving DecidableEq, Repr

/-- `PatternRecognition.find_triple_top`. -/
def find_triple_top (df : List Bar) (threshold : ℚ) : List TripleTopRec :=
  if df.length < 15 then [] else
  let hs := highs df
  let peaks := find_peaks hs 5
  if peaks.length < 3 then [] else
  (List.range (peaks.length - 2)).filterMap fun i =>
    let p1 := hs.getD (peaks.getD i 0) 0
    let p2 := hs.getD (peaks.getD (i+1) 0) 0
    let p3 := hs.getD (peaks.getD (i+2) 0) 0
    if fdivLT |p1 - p2| p1 threshold ∧ fdivLT |p2 - p3| p2 threshold
    then some ⟨[peaks.getD i 0, peaks.getD (i+1) 0, peaks.getD (i+2) 0], (p1 + p2 + p3) / 3⟩
    else none

/-- Detection record of `find_triple_bottom`. -/
structure TripleBottomRec where
  troughs : List ℕ
  price : ℚ
  deriving DecidableEq, Repr

/-- `PatternRecognition.find_triple_bottom`. -/
def find_triple_bottom (df : List Bar) (threshold : ℚ) : List TripleBottomRec :=
  if df.length < 15 then [] else
  let ls := lows df
  let troughs := find_troughs ls 5
  if troughs.length < 3 then [] else
  (List.range (troughs.length - 2)).filterMap fun i =>
    let t1 := ls.getD (troughs.getD i 0) 0
    let t2 := ls.getD (troughs.getD (i+1) 0) 0
    let t3 := ls.getD (troughs.getD (i+2) 0) 0
    if fdivLT |t1 - t2| t1 threshold ∧ fdivLT |t2 - t3| t2 threshold
    then some ⟨[troughs.getD i 0, troughs.getD (i+1) 0, troughs.getD (i+2) 0], (t1 + t2 + t3) / 3⟩
    else none

/-- Detection record of `find_triangle_patterns`. -/
structure TriangleRec where
  index : ℕ
  type : String
  high_slope : ℚ
  low_slope : ℚ
  deriving DecidableEq, Repr

/-- `PatternRecognition.find_triangle_patterns`.  For `window = 0` the
sliced segment is empty and `np.polyfit` raises (swallowed by the inner
`except`), hence the explicit empty-segment skip. -/
def find_triangle_patterns (df : List Bar) (window : ℕ) : List TriangleRec :=
  if df.length < window then [] else
  (List.range df.length).filterMap fun i =>
    if i < window then none else
    let seg := pySlice df (i - window) i
    if seg.length = 0 then none else
    let hslope := slopeAt (highs seg)
    let lslope := slopeAt (lows seg)
    if |hslope| < (1/1000) ∧ (1/1000) < lslope then some ⟨i, "ascending_triangle", hslope, lslope⟩
    else if hslope < -(1/1000) ∧ |lslope| < (1/1000) then some ⟨i, "descending_triangle", hslope, lslope⟩
    else if hslope < -(1/1000) ∧ (1/1000) < lslope then some ⟨i, "symmetric_triangle", hslope, lslope⟩
    else none

/-- Detection record of `find_rounding_bottom`. -/
structure RoundingRec where
  index : ℕ
  start : ℕ
  curvature : ℚ
  deriving DecidableEq, Repr

/-- `PatternRecognition.find_rounding_bottom`. -/
def find_rounding_bottom (df : List Bar) (window : ℕ) : List RoundingRec :=
  if df.length < window then [] else
  (List.range df.length).filterMap fun i =>
    if i < window then none else
    let seg := pySlice df (i - window) i
    if seg.length = 0 then none else
    let a := quadA (lows seg)
    if (1/100000) < a then some ⟨i, i - window, a⟩ else none

/-- Detection record of `find_cup_and_handle`. -/
structure CupHandleRec where
  cup_start : ℕ
  cup_end : ℕ
  handle_end : ℕ
  deriving DecidableEq, Repr

/-- `PatternRecognition.find_cup_and_handle`. -/
def find_cup_and_handle (df : List Bar) (window : ℕ) : List CupHandleRec :=
  if df.length < window + 10 then [] else
  (find_rounding_bottom df window).filterMap fun cup =>
    let handle_start := cup.index
    let handle_segment := pySlice df handle_start (handle_start + 10)
    if 5 ≤ handle_segment.length then
      let handle_high := listMax (highs handle_segment)
      let handle_low := listMin (lows handle_segment)
      if fdivLT (handle_high - handle_low) handle_high (15/100)
      then some ⟨cup.start, cup.index, handle_start + 10⟩ else none
    else none

/-- Detection record of `find_ascending_wedge` / `find_descending_wedge`. -/
structure WedgeRec where
  index : ℕ
  start : ℕ
  high_slope : ℚ
  low_slope : ℚ
  deriving DecidableEq, Repr

/-- `PatternRecognition.find_ascending_wedge`. -/
def find_ascending_wedge (df : List Bar) (window : ℕ) : List WedgeRec :=
  if df.length < window then [] else
  (List.range df.length).filterMap fun i =>
    if i < window then none else
    let seg := pySlice df (i - window) i
    if seg.length = 0 then none else
    let hslope := slopeAt (highs seg)
    let lslope := slopeAt (lows seg)
    if 0 < hslope ∧ 0 < lslope ∧ hslope < lslope * 2
    then some ⟨i, i - window, hslope, lslope⟩ else none

/-- `PatternRecognition.find_descending_wedge`. -/
def find_descending_wedge (df : List Bar) (window : ℕ) : List WedgeRec :=
  if df.length < window then [] else
  (List.range df.length).filterMap fun i =>
    if i < window then none else
    let seg := pySlice df (i - window) i
    if seg.length = 0 then none else
    let hslope := slopeAt (highs seg)
    let lslope := slopeAt (lows seg)
    if hslope < 0 ∧ lslope < 0 ∧ lslope < hslope * 2
    then some ⟨i, i - window, hslope, lslope⟩ else none

/-- Detection record carrying `index`, `start` and a `type` tag
(rising/falling wedge, bump-and-run, megaphone). -/
structure IdxStartTypeRec where
  index : ℕ
  start : ℕ
  type : String
  deriving DecidableEq, Repr

/-- `PatternRecognition.find_rising_wedge`. -/
def find_rising_wedge (df : List Bar) (window : ℕ) : List IdxStartTypeRec :=
  if df.length < window then [] else
  (List.range df.length).filterMap fun i =>
    if i < window then none else
    let seg := pySlice df (i - window) i
    let segHighs := highs seg
    let segLows := lows seg
    let peaks := find_peaks segHighs 3
    let troughs := find_troughs segLows 3
    if 2 ≤ peaks.length ∧ 2 ≤ troughs.length then
      let peak_slope := slopePts (peaks.map fun p => (p, segHighs.getD p 0))
      let trough_slope := slopePts (troughs.map fun t => (t, segLows.getD t 0))
      if 0 < peak_slope ∧ 0 < trough_slope ∧ peak_slope < trough_slope
      then some ⟨i, i - window, "rising_wedge"⟩ else none
    else none

/-- `PatternRecognition.find_falling_wedge`. -/
def find_falling_wedge (df : List Bar) (window : ℕ) : List IdxStartTypeRec :=
  if df.length < window then [] else
  (List.range df.length).filterMap fun i =>
    if i < window then none else
    let seg := pySlice df (i - window) i
    let segHighs := highs seg
    let segLows := lows seg
    let peaks := find_peaks segHighs 3
    let troughs := find_troughs segLows 3
    if 2 ≤ peaks.length ∧ 2 ≤ troughs.length then
      let peak_slope := slopePts (peaks.map fun p => (p, segHighs.getD p 0))
      let trough_slope := slopePts (troughs.map fun t => (t, segLows.getD t 0))
      if peak_slope < 0 ∧ trough_slope < 0 ∧ peak_slope < trough_slope
      then some ⟨i, i - window, "falling_wedge"⟩ else none
    else none

/-- Detection record of `find_flag_pattern` / `find_pennant_pattern`. -/
structure FlagRec where
  index : ℕ
  type : String
  pole_start : ℕ
  deriving DecidableEq, Repr

/-- `PatternRecognition.find_flag_pattern`. -/
def find_flag_pattern (df : List Bar) (window : ℕ) : List FlagRec :=
  if df.length < window + 5 then [] else
  (List.range df.length).filterMap fun i =>
    if i < window + 5 then none else
    let pole := closes (pySlice df (i - window - 5) (i - window))
    let flg := pySlice df (i - window) i
    let num := pole.getLastD 0 - pole.headD 0
    let den := pole.headD 0
    if fdivGT num den (5/100) then
      let flag_slope := slopeAt (closes flg)
      if -(2/1000) < flag_slope ∧ flag_slope < 0
      then some ⟨i, "bullish_flag", i - window - 5⟩ else none
    else if fdivLT num den (-(5/100)) then
      let flag_slope := slopeAt (closes flg)
      if 0 < flag_slope ∧ flag_slope < (2/1000)
      then some ⟨i, "bearish_flag", i - window - 5⟩ else none
    else none

/-- `PatternRecognition.find_pennant_pattern`. -/
def find_pennant_pattern (df : List Bar) (window : ℕ) : List FlagRec :=
  if df.length < window + 5 then [] else
  (List.range df.length).filterMap fun i =>
    if i < window + 5 then none else
    let pole := closes (pySlice df (i - window - 5) (i - window))
    let pennant := pySlice df (i - window) i
    let num := pole.getLastD 0 - pole.headD 0
    let den := pole.headD 0
    if fdivAbsGT num den (5/100) then
      let phighs := highs pennant
      let plows := lows pennant
      let range_start := phighs.headD 0 - plows.headD 0
      let range_end := phighs.getLastD 0 - plows.getLastD 0
      if range_end < range_start * (1/2) then
        some ⟨i, if fdivGT num den 0 then "bullish_pennant" else "bearish_pennant", i - window - 5⟩
      else none
    else none

/-- Detection record of `find_channel_patterns`. -/
structure ChannelRec where
  index : ℕ
  type : String
  start : ℕ
  deriving DecidableEq, Repr

/-- `PatternRecognition.find_channel_patterns`. -/
def find_channel_patterns (df : List Bar) (window : ℕ) : List ChannelRec :=
  if df.length < window then [] else
  (List.range df.length).filterMap fun i =>
    if i < window then none else
    let seg := pySlice df (i - window) i
    if seg.length = 0 then none else
    let hslope := slopeAt (highs seg)
    let lslope := slopeAt (lows seg)
    let slope_diff := if hslope ≠ 0 then |hslope - lslope| / |hslope| else 1
    if slope_diff < (3/10) then
      if (1/1000) < hslope ∧ (1/1000) < lslope then some ⟨i, "ascending_channel", i - window⟩
      else if hslope < -(1/1000) ∧ lslope < -(1/1000) then some ⟨i, "descending_channel", i - window⟩
      else none
    else none

/-- `PatternRecognition.find_bump_and_run`. -/
def find_bump_and_run (df : List Bar) (window : ℕ) : List IdxStartTypeRec :=
  if df.length < window then [] else
  (List.range df.length).filterMap fun i =>
    if i < window then none else
    let seg := pySlice df (i - window) i
    if seg.length = 0 then none else
    let lead_in := seg.take (window / 3)
    let bump := (seg.drop (window / 3)).take (2 * window / 3 - window / 3)
    let run := seg.drop (2 * window / 3)
    let lead_slope := slopeAt (closes lead_in)
    let bump_slope := slopeAt (closes bump)
    let run_slope := slopeAt (closes run)
    if 0 < lead_slope ∧ lead_slope * 2 < bump_slope ∧ run_slope < 0
    then some ⟨i, i - window, "bump_and_run_reversal"⟩ else none

/-- Detection record of `find_dragon_pattern`. -/
structure DragonRec where
  troughs : List ℕ
  type : String
  deriving DecidableEq, Repr

/-- `PatternRecognition.find_dragon_pattern`. -/
def find_dragon_pattern (df : List Bar) : List DragonRec :=
  if df.length < 20 then [] else
  let ls := lows df
  let troughs := find_troughs ls 4
  if 3 ≤ troughs.length then
    (List.range (troughs.length - 2)).filterMap fun i =>
      let t1 := ls.getD (troughs.getD i 0) 0
      let t2 := ls.getD (troughs.getD (i+1) 0) 0
      let t3 := ls.getD (troughs.getD (i+2) 0) 0
      if t1 * (98/100) < t2 ∧ t2 * (98/100) < t3
      then some ⟨[troughs.getD i 0, troughs.getD (i+1) 0, troughs.getD (i+2) 0], "dragon"⟩
      else none
  else []

/-- Detection record of `find_adam_eve_pattern`. -/
structure AdamEveRec where
  adam : ℕ
  eve : ℕ
  type : String
  deriving DecidableEq, Repr

/-- `PatternRecognition.find_adam_eve_pattern`. -/
def find_adam_eve_pattern (df : List Bar) (threshold : ℚ) : List AdamEveRec :=
  if df.length < 20 then [] else
  let ls := lows df
  let troughs := find_troughs ls 5
  if troughs.length < 2 then [] else
  (List.range (troughs.length - 1)).filterMap fun i =>
    let idx1 := troughs.getD i 0
    let idx2 := troughs.getD (i+1) 0
    let before1 := pySliceQ ls (idx1 - 3) idx1
    let after1 := pySliceQ ls (idx1 + 1) (idx1 + 3 + 1)
    let sharp1 := before1.length ≠ 0 ∧ after1.length ≠ 0
    let bottom2 := pySliceQ ls (idx2 - 5) (idx2 + 5 + 1)
    if 5 ≤ bottom2.length then
      let rounded2 := 0 < quadA bottom2
      if sharp1 ∧ rounded2 ∧ fdivLT |ls.getD idx1 0 - ls.getD idx2 0| (ls.getD idx1 0) threshold
      then some ⟨idx1, idx2, "adam_eve_double_bottom"⟩ else none
    else none

/-- `PatternRecognition.find_megaphone_pattern`. -/
def find_megaphone_pattern (df : List Bar) (window : ℕ) : List IdxStartTypeRec :=
  if df.length < window then [] else
  (List.range df.length).filterMap fun i =>
    if i < window then none else
    let seg := pySlice df (i - window) i
    let ranges := ((List.range seg.length).filter (fun j => 5 ≤ j)).map fun j =>
      let recent := pySlice seg (j - 5) j
      listMax (highs recent) - listMin (lows recent)
    if 3 ≤ ranges.length then
      if 0 < slopeAt ranges then some ⟨i, i - window, "megaphone"⟩ else none
    else none

/-- Detection record of `find_dead_cat_bounce`. -/
structure DeadCatRec where
  index : ℕ
  drop_start : ℕ
  bounce_start : ℕ
  type : String
  deriving DecidableEq, Repr

/-- `PatternRecognition.find_dead_cat_bounce`. -/
def find_dead_cat_bounce (df : List Bar) (window : ℕ) : List DeadCatRec :=
  if df.length < window + 5 then [] else
  (List.range df.length).filterMap fun i =>
    if i < window + 5 then none else
    let dcl := closes (pySlice df (i - window - 5) (i - window))
    let bcl := closes (pySlice df (i - window) i)
    let acl := closes (pySlice df (i - 3) i)
    let continued_drop := acl.getLastD 0 < acl.headD 0
    if fdivLT (dcl.getLastD 0 - dcl.headD 0) (dcl.headD 0) (-(10/100)) ∧
       fdivGT (listMax bcl - bcl.headD 0) (bcl.headD 0) 0 ∧
       fdivLT (listMax bcl - bcl.headD 0) (bcl.headD 0) (5/100) ∧ continued_drop
    then some ⟨i, i - window - 5, i - window, "dead_cat_bounce"⟩ else none

/-- One turning point of the ABCD scan: (position, kind tag, price). -/
structure TurnPt where
  idx : ℕ
  tag : String
  price : ℚ
  deriving DecidableEq, Repr

/-- Stable merge of two index-sorted turning-point lists (ties keep the
first list's element first), matching Python's stable `sort` applied to the
peak list followed by the trough list. -/
def mergePts : List TurnPt → List TurnPt → List TurnPt
  | [], ys => ys
  | x :: xs, [] => x :: xs
  | x :: xs, y :: ys =>
    if x.idx ≤ y.idx then x :: mergePts xs (y :: ys) else y :: mergePts (x :: xs) ys
  termination_by xs ys => xs.length + ys.length

/-- Detection record of `find_abcd_pattern`. -/
structure AbcdRec where
  A : ℕ
  B : ℕ
  C : ℕ
  D : ℕ
  type : String
  deriving DecidableEq, Repr

/-- `PatternRecognition.find_abcd_pattern`. -/
def find_abcd_pattern (df : List Bar) (threshold : ℚ) : List AbcdRec :=
  if df.length < 20 then [] else
  let hsq := highs df
  let lsq := lows df
  let peaks := (find_peaks hsq 4).map fun p => TurnPt.mk p "peak" (hsq.getD p 0)
  let troughs := (find_troughs lsq 4).map fun t => TurnPt.mk t "trough" (lsq.getD t 0)
  let all_points := mergePts peaks troughs
  if all_points.length < 4 then [] else
  (List.range (all_points.length - 3)).filterMap fun i =>
    let a := all_points.getD i ⟨0, "", 0⟩
    let b := all_points.getD (i+1) ⟨0, "", 0⟩
    let c := all_points.getD (i+2) ⟨0, "", 0⟩
    let d := all_points.getD (i+3) ⟨0, "", 0⟩
    if a.tag ≠ b.tag ∧ b.tag ≠ c.tag ∧ c.tag ≠ d.tag then
      let ab := |b.price - a.price|
      let cd := |d.price - c.price|
      if fdivLT |ab - cd| ab threshold
      then some ⟨a.idx, b.idx, c.idx, d.idx, "abcd_pattern"⟩ else none
    else none

/-- Detection record of `find_rectangle_pattern`. -/
structure RectangleRec where
  index : ℕ
  start : ℕ
  resistance : ℚ
  support : ℚ
  type : String
  deriving DecidableEq, Repr

/-- `PatternRecognition.find_rectangle_pattern`. -/
def find_rectangle_pattern (df : List Bar) (window : ℕ) (threshold : ℚ) : List RectangleRec :=
  if df.length < window then [] else
  (List.range df.length).filterMap fun i =>
    if i < window then none else
    let seg := pySlice df (i - window) i
    if seg.length = 0 then none else
    let resistance := listMax (highs seg)
    let support := listMin (lows seg)
    let resistance_touches := (highs seg).countP fun h => fdivLT |h - resistance| resistance threshold
    let support_touches := (lows seg).countP fun l => fdivLT |l - support| support threshold
    if 2 ≤ resistance_touches ∧ 2 ≤ support_touches ∧
       fdivGT (resistance - support) support (3/100) ∧ fdivLT (resistance - support) support (15/100)
    then some ⟨i, i - window, resistance, support, "rectangle"⟩ else none

/-! ## Candlestick matchers -/

/-- Detection record of `find_hammer_patterns`. -/
structure HammerRec where
  index : ℕ
  type : String
  strength : ℚ
  deriving DecidableEq, Repr

/-- Body of the `find_hammer_patterns` loop at index `i`: a zero-range bar
(`high == low`) is skipped via `continue` before any division happens. -/
def hammer_at (df : List Bar) (i : ℕ) : Option HammerRec :=
  let candle := df.getD i default
  let body := |candle.open_ - candle.close|
  let upper_shadow := candle.high - max candle.open_ candle.close
  let lower_shadow := min candle.open_ candle.close - candle.low
  let total_height := candle.high - candle.low
  if total_height = 0 then none
  else if 2 * body < lower_shadow ∧ upper_shadow < (1/2) * body then
    some ⟨i, "hammer", if 0 < body then lower_shadow / body else 0⟩
  else if 2 * body < upper_shadow ∧ lower_shadow < (1/2) * body then
    some ⟨i, "inverted_hammer", if 0 < body then upper_shadow / body else 0⟩
  else none

/-- `PatternRecognition.find_hammer_patterns`. -/
def find_hammer_patterns (df : List Bar) : List HammerRec :=
  if df.length < 2 then [] else
  (List.range df.length).filterMap (hammer_at df)

/-- Detection record carrying only `index` and `type` (all remaining
candlestick matchers). -/
structure IdxTypeRec where
  index : ℕ
  type : String
  deriving DecidableEq, Repr

/-- Body of the `find_doji_patterns` loop at index `i`: a zero-range bar is
skipped via `continue` before the `body / total_range` division. -/
def doji_at (df : List Bar) (i : ℕ) : Option IdxTypeRec :=
  let candle := df.getD i default
  let body := |candle.close - candle.open_|
  let total_range := candle.high - candle.low
  if total_range = 0 then none
  else if body / total_range < (1/10) then
    let upper_shadow := candle.high - max candle.open_ candle.close
    let lower_shadow := min candle.open_ candle.close - candle.low
    some ⟨i, if 2 * lower_shadow < upper_shadow then "dragonfly_doji"
             else if 2 * upper_shadow < lower_shadow then "gravestone_doji"
             else "standard_doji"⟩
  else none

/-- `PatternRecognition.find_doji_patterns`. -/
def find_doji_patterns (df : List Bar) : List IdxTypeRec :=
  if df.length < 1 then [] else
  (List.range df.length).filterMap (doji_at df)

/-- `PatternRecognition.find_bullish_engulfing`. -/
def find_bullish_engulfing (df : List Bar) : List IdxTypeRec :=
  if df.length < 2 then [] else
  (List.range df.length).filterMap fun i =>
    if i < 1 then none else
    let prev := df.getD (i-1) default
    let curr := df.getD i default
    if prev.close < prev.open_ ∧ curr.open_ < curr.close ∧
       curr.open_ ≤ prev.close ∧ prev.open_ ≤ curr.close
    then some ⟨i, "bullish_engulfing"⟩ else none

/-- `PatternRecognition.find_bearish_engulfing`. -/
def find_bearish_engulfing (df : List Bar) : List IdxTypeRec :=
  if df.length < 2 then [] else
  (List.range df.length).filterMap fun i =>
    if i < 1 then none else
    let prev := df.getD (i-1) default
    let curr := df.getD i default
    if prev.open_ < prev.close ∧ curr.close < curr.open_ ∧
       prev.close ≤ curr.open_ ∧ curr.close ≤ prev.open_
    then some ⟨i, "bearish_engulfing"⟩ else none

/-- `PatternRecognition.find_morning_star`. -/
def find_morning_star (df : List Bar) : List IdxTypeRec :=
  if df.length < 3 then [] else
  (List.range df.length).filterMap fun i =>
    if i < 2 then none else
    let first := df.getD (i-2) default
    let second := df.getD (i-1) default
    let third := df.getD i default
    let first_body := |first.close - first.open_|
    let second_body := |second.close - second.open_|
    let third_body := |third.close - third.open_|
    if first.close < first.open_ ∧ second_body < first_body * (3/10) ∧
       third.open_ < third.close ∧ first_body * (6/10) < third_body ∧
       (first.open_ + first.close) / 2 < third.close
    then some ⟨i, "morning_star"⟩ else none

/-- `PatternRecognition.find_evening_star`. -/
def find_evening_star (df : List Bar) : List IdxTypeRec :=
  if df.length < 3 then [] else
  (List.range df.length).filterMap fun i =>
    if i < 2 then none else
    let first := df.getD (i-2) default
    let second := df.getD (i-1) default
    let third := df.getD i default
    let first_body := |first.close - first.open_|
    let second_body := |second.close - second.open_|
    let third_body := |third.close - third.open_|
    if first.open_ < first.close ∧ second_body < first_body * (3/10) ∧
       third.close < third.open_ ∧ first_body * (6/10) < third_body ∧
       third.close < (first.open_ + first.close) / 2
    then some ⟨i, "evening_star"⟩ else none

/-- `PatternRecognition.find_shooting_star`. -/
def find_shooting_star (df : List Bar) : List IdxTypeRec :=
  if df.length < 2 then [] else
  (List.range df.length).filterMap fun i =>
    if i < 1 then none else
    let prev := df.getD (i-1) default
    let curr := df.getD i default
    let body := |curr.close - curr.open_|
    let upper_shadow := curr.high - max curr.open_ curr.close
    let lower_shadow := min curr.open_ curr.close - curr.low
    if 2 * body < upper_shadow ∧ lower_shadow < (1/2) * body ∧
       curr.close < curr.open_ ∧ prev.open_ < prev.close
    then some ⟨i, "shooting_star"⟩ else none

/-- `PatternRecognition.find_piercing_pattern`. -/
def find_piercing_pattern (df : List Bar) : List IdxTypeRec :=
  if df.length < 2 then [] else
  (List.range df.length).filterMap fun i =>
    if i < 1 then none else
    let prev := df.getD (i-1) default
    let curr := df.getD i default
    let prev_mid := (prev.open_ + prev.close) / 2
    if prev.close < prev.open_ ∧ curr.open_ < curr.close ∧
       curr.open_ < prev.close ∧ prev_mid < curr.close ∧ curr.close < prev.open_
    then some ⟨i, "piercing_pattern"⟩ else none

/-- `PatternRecognition.find_dark_cloud_cover`. -/
def find_dark_cloud_cover (df : List Bar) : List IdxTypeRec :=
  if df.length < 2 then [] else
  (List.range df.length).filterMap fun i =>
    if i < 1 then none else
    let prev := df.getD (i-1) default
    let curr := df.getD i default
    let prev_mid := (prev.open_ + prev.close) / 2
    if prev.open_ < prev.close ∧ curr.close < curr.open_ ∧
       prev.close < curr.open_ ∧ curr.close < prev_mid ∧ prev.open_ < curr.close
    then some ⟨i, "dark_cloud_cover"⟩ else none

/-- `PatternRecognition.find_three_white_soldiers`. -/
def find_three_white_soldiers (df : List Bar) : List IdxTypeRec :=
  if df.length < 3 then [] else
  (List.range df.length).filterMap fun i =>
    if i < 2 then none else
    let first := df.getD (i-2) default
    let second := df.getD (i-1) default
    let third := df.getD i default
    if first.open_ < first.close ∧ second.open_ < second.close ∧ third.open_ < third.close ∧
       first.close < second.close ∧ second.close < third.close ∧
       first.open_ < second.open_ ∧ second.open_ < first.close ∧
       second.open_ < third.open_ ∧ third.open_ < second.close
    then some ⟨i, "three_white_soldiers"⟩ else none

/-- `PatternRecognition.find_three_black_crows`. -/
def find_three_black_crows (df : List Bar) : List IdxTypeRec :=
  if df.length < 3 then [] else
  (List.range df.length).filterMap fun i =>
    if i < 2 then none else
    let first := df.getD (i-2) default
    let second := df.getD (i-1) default
    let third := df.getD i default
    if first.close < first.open_ ∧ second.close < second.open_ ∧ third.close < third.open_ ∧
       second.close < first.close ∧ third.close < second.close ∧
       first.close < second.open_ ∧ second.open_ < first.open_ ∧
       second.close < third.open_ ∧ third.open_ < second.open_
    then some ⟨i, "three_black_crows"⟩ else none

/-- `PatternRecognition.find_tweezer_patterns` (a single index can emit both
a top and a bottom record, in that order). -/
def find_tweezer_patterns (df : List Bar) : List IdxTypeRec :=
  if df.length < 2 then [] else
  (List.range df.length).flatMap fun i =>
    if i < 1 then [] else
    let prev := df.getD (i-1) default
    let curr := df.getD i default
    (if fdivLT |prev.high - curr.high| prev.high (2/1000) ∧
        prev.open_ < prev.close ∧ curr.close < curr.open_
     then [IdxTypeRec.mk i "tweezer_top"] else []) ++
    (if fdivLT |prev.low - curr.low| prev.low (2/1000) ∧
        prev.close < prev.open_ ∧ curr.open_ < curr.close
     then [IdxTypeRec.mk i "tweezer_bottom"] else [])

/-- `PatternRecognition.find_harami_patterns`. -/
def find_harami_patterns (df : List Bar) : List IdxTypeRec :=
  if df.length < 2 then [] else
  (List.range df.length).filterMap fun i =>
    if i < 1 then none else
    let prev := df.getD (i-1) default
    let curr := df.getD i default
    let prev_body := |prev.close - prev.open_|
    let curr_body := |curr.close - curr.open_|
    if (min prev.open_ prev.close < min curr.open_ curr.close ∧
        max curr.open_ curr.close < max prev.open_ prev.close) ∧
       curr_body < prev_body * (1/2) then
      if prev.close < prev.open_ ∧ curr.open_ < curr.close then some ⟨i, "bullish_harami"⟩
      else if prev.open_ < prev.close ∧ curr.close < curr.open_ then some ⟨i, "bearish_harami"⟩
      else none
    else none

/-! ## Pattern aggregator -/

/-- Tagged union over all detection-record shapes, so the pattern map can
hold heterogeneous detection lists like the Python dict does. -/
inductive PDetection where
  | doubleTop (r : DoubleTopRec)
  | doubleBottom (r : DoubleBottomRec)
  | headShoulders (r : HSRec)
  | triangle (r : TriangleRec)
  | hammer (r : HammerRec)
  | tripleTop (r : TripleTopRec)
  | tripleBottom (r : TripleBottomRec)
  | rounding (r : RoundingRec)
  | cupHandle (r : CupHandleRec)
  | wedge (r : WedgeRec)
  | idxStartType (r : IdxStartTypeRec)
  | flagLike (r : FlagRec)
  | channel (r : ChannelRec)
  | dragon (r : DragonRec)
  | invHS (r : InvHSRec)
  | adamEve (r : AdamEveRec)
  | deadCat (r : DeadCatRec)
  | abcd (r : AbcdRec)
  | rect (r : RectangleRec)
  | candle (r : IdxTypeRec)
  deriving DecidableEq, Repr

/-- `PatternRecognition.detect_all_patterns`: runs every matcher with its
default parameters and assembles the full name-keyed map (here an
association list preserving the source's insertion order). -/
def detect_all_patterns (df : List Bar) : List (String × List PDetection) :=
  [("Double Tops", (find_double_top df (2/100)).map .doubleTop),
   ("Double Bottoms", (find_double_bottom df (2/100)).map .doubleBottom),
   ("Head & Shoulders", (find_head_and_shoulders df (2/100)).map .headShoulders),
   ("Triangles", (find_triangle_patterns df 20).map .triangle),
   ("Hammers", (find_hammer_patterns df).map .hammer),
   ("Triple Tops", (find_triple_top df (2/100)).map .tripleTop),
   ("Triple Bottoms", (find_triple_bottom df (2/100)).map .tripleBottom),
   ("Rounding Bottom", (find_rounding_bottom df 20).map .rounding),
   ("Cup & Handle", (find_cup_and_handle df 30).map .cupHandle),
   ("Ascending Wedge", (find_ascending_wedge df 15).map .wedge),
   ("Descending Wedge", (find_descending_wedge df 15).map .wedge),
   ("Rising Wedge", (find_rising_wedge df 15).map .idxStartType),
   ("Falling Wedge", (find_falling_wedge df 15).map .idxStartType),
   ("Flag Patterns", (find_flag_pattern df 10).map .flagLike),
   ("Pennants", (find_pennant_pattern df 10).map .flagLike),
   ("Channels", (find_channel_patterns df 20).map .channel),
   ("Bump & Run", (find_bump_and_run df 30).map .idxStartType),
   ("Dragon", (find_dragon_pattern df).map .dragon),
   ("Inv H&S", (find_inverse_head_shoulders df (2/100)).map .invHS),
   ("Adam & Eve", (find_adam_eve_pattern df (3/100)).map .adamEve),
   ("Megaphone", (find_megaphone_pattern df 15).map .idxStartType),
   ("Dead Cat Bounce", (find_dead_cat_bounce df 10).map .deadCat),
   ("ABCD Pattern", (find_abcd_pattern df (2/100)).map .abcd),
   ("Rectangle", (find_rectangle_pattern df 20 (2/100)).map .rect),
   ("Bullish Engulfing", (find_bullish_engulfing df).map .candle),
   ("Bearish Engulfing", (find_bearish_engulfing df).map .candle),
   ("Morning Star", (find_morning_star df).map .candle),
   ("Evening Star", (find_evening_star df).map .candle),
   ("Doji", (find_doji_patterns df).map .candle),
   ("Shooting Star", (find_shooting_star df).map .candle),
   ("Piercing Pattern", (find_piercing_pattern df).map .candle),
   ("Dark Cloud", (find_dark_cloud_cover df).map .candle),
   ("3 White Soldiers", (find_three_white_soldiers df).map .candle),
   ("3 Black Crows", (find_three_black_crows df).map .candle),
   ("Tweezers", (find_tweezer_patterns df).map .candle),
   ("Harami", (find_harami_patterns df).map .candle)]

/-! ## Alpha scoring engine (`app/services/alpha_signals.py`) -/

/-- The flat optional-float metric record consumed by
`AlphaSignalsService._compose_alpha`. -/
structure MarketMetrics where
  funding_rate_8h : Option ℚ
  oi_level : Option ℚ
  oi_change_24h_pct : Option ℚ
  ls_accounts : Option ℚ
  ls_positions : Option ℚ
  liq_24h_long_usd : Option ℚ
  liq_24h_short_usd : Option ℚ
  deriving DecidableEq, Repr

/-- `AlphaSignalsService._normalize_pct`. -/
def normalize_pct (x : Option ℚ) (clamp : ℚ) : ℚ :=
  match x with
  | none => 50
  | some x => 50 + (max (-clamp) (min clamp x)) / clamp * 50

/-- `AlphaSignalsService._ratio_to_score`. -/
def ratio_to_score (r : Option ℚ) : ℚ :=
  match r with
  | none => 50
  | some r =>
    if r ≤ 0 then 50 else
    let r := max (1/5) (min 5 r)
    if 1 ≤ r then 50 + min 50 ((r - 1) / 4 * 50)
    else 50 - min 50 ((1 - r) / (4/5) * 50)

/-- `AlphaSignalsService._bias_from_funding`. -/
def bias_from_funding (rate : Option ℚ) : String :=
  match rate with
  | none => "neutral"
  | some rate =>
    if (1/100) < rate then "bullish_crowded"
    else if 0 < rate then "slightly_bullish"
    else if rate < -(5/1000) then "bearish_crowded"
    else if rate < 0 then "slightly_bearish"
    else "neutral"

/-- The funding `if/elif` chain of `_compose_alpha`: score together with the
reason string appended for that bias category. -/
def funding_pair (bias : String) : ℚ × String :=
  if bias = "bullish_crowded" then (40, "Funding sangat positif → longs crowded")
  else if bias = "slightly_bullish" then (58, "Funding positif → dominasi long")
  else if bias = "slightly_bearish" then (62, "Funding negatif ringan → kontra crowd")
  else if bias = "bearish_crowded" then (68, "Funding sangat negatif → shorts crowded (squeeze risk)")
  else (50, "Funding netral")

/-- Reason strings appended by the open-interest step of `_compose_alpha`
(one reason whenever the metric is present, even at a neutral 0 change). -/
def oi_reasons (m : MarketMetrics) : List String :=
  match m.oi_change_24h_pct with
  | none => []
  | some v =>
    [if 0 < v then "Open Interest naik → leverage bertambah (potensi move besar)"
     else "Open Interest turun → deleverage"]

/-- Reason strings appended by the long/short-ratio step of
`_compose_alpha`. -/
def ls_reasons (m : MarketMetrics) : List String :=
  let ls_score := (ratio_to_score m.ls_accounts + ratio_to_score m.ls_positions) / 2
  if m.ls_accounts ≠ none ∨ m.ls_positions ≠ none then
    ["Long/Short ratio condong ke " ++
      (if 52 ≤ ls_score then "long" else if ls_score ≤ 48 then "short" else "netral")]
  else []

/-- Liquidation score together with the reason strings appended by the
liquidation step of `_compose_alpha` (Python truthiness: the branch runs
iff either volume is nonzero after the `or 0.0` defaulting). -/
def liq_pair (m : MarketMetrics) : ℚ × List String :=
  let long_usd := m.liq_24h_long_usd.getD 0
  let short_usd := m.liq_24h_short_usd.getD 0
  if long_usd ≠ 0 ∨ short_usd ≠ 0 then
    if long_usd * (13/10) < short_usd then (58, ["Likuidasi short dominan → potensi relief ke atas"])
    else if short_usd * (13/10) < long_usd then (42, ["Likuidasi long dominan → tekanan turun"])
    else (50, ["Likuidasi relatif seimbang"])
  else (50, [])

/-- `AlphaSignalsService._compose_alpha`: returns
`(composite score, label, reasons)`. -/
def compose_alpha (m : MarketMetrics) : ℤ × String × List String :=
  let oi_score := normalize_pct m.oi_change_24h_pct 40
  let fp := funding_pair (bias_from_funding m.funding_rate_8h)
  let ls_score := (ratio_to_score m.ls_accounts + ratio_to_score m.ls_positions) / 2
  let lp := liq_pair m
  let composite := pyRound ((30/100) * oi_score + (25/100) * fp.1 + (25/100) * ls_score + (20/100) * lp.1)
  let label := if 60 ≤ composite then "BULLISH" else if composite ≤ 40 then "BEARISH" else "NEUTRAL"
  (composite, label, oi_reasons m ++ [fp.2] ++ ls_reasons m ++ lp.2)

/-- Result record of `AlphaSignalsService._smart_money_flow` (the numeric
and categorical fields of the returned dict; the formatted reason strings
are pure string interpolation and are not modelled). -/
structure SmartMoneyRec where
  score : ℤ
  label : String
  delta_long_share_pp : Option ℚ
  oi_norm : ℚ
  share_norm : ℚ
  funding_bias : String
  liq_adj : ℚ
  deriving DecidableEq, Repr

/-- `AlphaSignalsService._smart_money_flow`. -/
def smart_money_flow (oi_change_pct : Option ℚ) (ls_pos_series : List ℚ)
    (funding_rate : Option ℚ) (liq_long liq_short : Option ℚ) : SmartMoneyRec :=
  let long_share_now : Option ℚ :=
    match ls_pos_series.getLast? with
    | none => none
    | some r => if 0 < r then some (r / (1 + r)) else none
  let long_share_prev : Option ℚ :=
    if 2 ≤ ls_pos_series.length then
      match ls_pos_series.head? with
      | none => none
      | some r => if 0 < r then some (r / (1 + r)) else none
    else none
  let delta_share_pp : Option ℚ :=
    match long_share_now, long_share_prev with
    | some a, some b => some ((a - b) * 100)
    | _, _ => none
  let norm_oi := normalize_pct oi_change_pct 40 - 50
  let norm_share : ℚ :=
    match delta_share_pp with
    | none => 0
    | some d => max (-20) (min 20 d) / 20 * 50
  let fbias := bias_from_funding funding_rate
  let fudge : ℚ :=
    (if fbias = "bearish_crowded" then 5 else 0) + (if fbias = "bullish_crowded" then -5 else 0)
  let ll := liq_long.getD 0
  let ss := liq_short.getD 0
  let liq_adj : ℚ :=
    if 0 < ll ∨ 0 < ss then
      if ll * (13/10) < ss then 5 else if ss * (13/10) < ll then -5 else 0
    else 0
  let flow_val := (6/10) * norm_oi + (4/10) * norm_share + fudge + liq_adj
  let flow_score := max 0 (min 100 (pyRound (50 + flow_val)))
  let label := if 60 ≤ flow_score then "INFLOW" else if flow_score ≤ 40 then "OUTFLOW" else "NEUTRAL"
  ⟨flow_score, label, delta_share_pp, norm_oi, norm_share, fbias, liq_adj⟩

/-! ## Spec-side definitions

These mirror the specification's wording (not the code) and are compared
with the code-derived definitions in the refinement theorems. -/

/-- Modelled from the spec: `funding_score` maps the bias category to a
fixed value in {40, 58, 50, 62, 68}. -/
def funding_score_spec (bias : String) : ℚ :=
  if bias = "bullish_crowded" then 40
  else if bias = "slightly_bullish" then 58
  else if bias = "slightly_bearish" then 62
  else if bias = "bearish_crowded" then 68
  else 50

/-- Modelled from the spec: `liquidation_score` is 58/42/50 depending on
whether short- or long-liquidation volume dominates by more than 1.3×. -/
def liquidation_score_spec (liqL liqS : Option ℚ) : ℚ :=
  let l := liqL.getD 0
  let s := liqS.getD 0
  if l * (13/10) < s then 58 else if s * (13/10) < l then 42 else 50

/-- Modelled from the spec: the composite alpha formula
`round(0.30*normalize_pct(oi_change,40) + 0.25*funding_score +
0.25*avg(ratio_to_score(ls_accounts), ratio_to_score(ls_positions)) +
0.20*liquidation_score)` (`round` being Python's half-to-even `round`). -/
def composite_score_spec (m : MarketMetrics) : ℤ :=
  pyRound ((30/100) * normalize_pct m.oi_change_24h_pct 40
    + (25/100) * funding_score_spec (bias_from_funding m.funding_rate_8h)
    + (25/100) * ((ratio_to_score m.ls_accounts + ratio_to_score m.ls_positions) / 2)
    + (20/100) * liquidation_score_spec m.liq_24h_long_usd m.liq_24h_short_usd)

/-- Modelled from the spec: head-and-shoulders emits a consecutive peak
triple iff the middle peak is strictly higher than both outer peaks, the
outer peaks are within `threshold` relative difference of each other, and
the peaks are at least 5 bars apart. -/
def find_head_and_shoulders_spec (df : List Bar) (threshold : ℚ) : List HSRec :=
  if df.length < 15 then [] else
  let hs := highs df
  let peaks := find_peaks hs 5
  if peaks.length < 3 then [] else
  (List.range (peaks.length - 2)).filterMap fun i =>
    let i0 := peaks.getD i 0
    let i1 := peaks.getD (i+1) 0
    let i2 := peaks.getD (i+2) 0
    let l := hs.getD i0 0
    let h := hs.getD i1 0
    let r := hs.getD i2 0
    if l < h ∧ r < h ∧ |l - r| / l < threshold ∧ 5 ≤ i1 - i0 ∧ 5 ≤ i2 - i1
    then some ⟨i0, i1, i2, (l + r) / 2⟩ else none

/-- Modelled from the spec: the inverse variant is the same condition on
troughs with the middle trough strictly lower. -/
def find_inverse_head_shoulders_spec (df : List Bar) (threshold : ℚ) : List InvHSRec :=
  if df.length < 15 then [] else
  let ls := lows df
  let troughs := find_troughs ls 5
  if troughs.length < 3 then [] else
  (List.range (troughs.length - 2)).filterMap fun i =>
    let i0 := troughs.getD i 0
    let i1 := troughs.getD (i+1) 0
    let i2 := troughs.getD (i+2) 0
    let l := ls.getD i0 0
    let h := ls.getD i1 0
    let r := ls.getD i2 0
    if h < l ∧ h < r ∧ |l - r| / l < threshold ∧ 5 ≤ i1 - i0 ∧ 5 ≤ i2 - i1
    then some ⟨i0, i1, i2, "inverse_head_shoulders"⟩ else none

/-! ## Lemmas about the extremum finder -/

lemma mem_argrelGreater {data : List ℚ} {order i : ℕ} :
    i ∈ argrelGreater data order ↔ i < data.length ∧ isPeakAt data order i = true := by
  simp [argrelGreater, List.mem_filter, List.mem_range]

lemma isPeakAt_iff {data : List ℚ} {order i : ℕ} : isPeakAt data order i = true ↔
    ∀ k < order, data.getD (min (i + (k+1)) (data.length - 1)) 0 < data.getD i 0 ∧
      data.getD (i - (k+1)) 0 < data.getD i 0 := by
  simp [isPeakAt, List.all_eq_true, List.mem_range]

lemma mem_argrelLess {data : List ℚ} {order i : ℕ} :
    i ∈ argrelLess data order ↔ i < data.length ∧ isTroughAt data order i = true := by
  simp [argrelLess, List.mem_filter, List.mem_range]

lemma isTroughAt_iff {data : List ℚ} {order i : ℕ} : isTroughAt data order i = true ↔
    ∀ k < order, data.getD i 0 < data.getD (min (i + (k+1)) (data.length - 1)) 0 ∧
      data.getD i 0 < data.getD (i - (k+1)) 0 := by
  simp [isTroughAt, List.all_eq_true, List.mem_range]

lemma argrelGreater_interior {data : List ℚ} {order i : ℕ} (hord : 1 ≤ order)
    (hi : i ∈ argrelGreater data order) : 0 < i ∧ i + 1 < data.length := by
  obtain ⟨hlt, hp⟩ := mem_argrelGreater.1 hi
  rw [isPeakAt_iff] at hp
  obtain ⟨h1, h2⟩ := hp 0 hord
  constructor
  · rcases Nat.eq_zero_or_pos i with h | h
    · subst h; simp at h2
    · exact h
  · by_contra h
    have hi' : i = data.length - 1 := by omega
    have hmin : min (i + (0+1)) (data.length - 1) = i := by omega
    rw [hmin] at h1
    exact absurd h1 (lt_irrefl _)

lemma argrelLess_interior {data : List ℚ} {order i : ℕ} (hord : 1 ≤ order)
    (hi : i ∈ argrelLess data order) : 0 < i ∧ i + 1 < data.length := by
  obtain ⟨hlt, hp⟩ := mem_argrelLess.1 hi
  rw [isTroughAt_iff] at hp
  obtain ⟨h1, h2⟩ := hp 0 hord
  constructor
  · rcases Nat.eq_zero_or_pos i with h | h
    · subst h; simp at h2
    · exact h
  · by_contra h
    have hmin : min (i + (0+1)) (data.length - 1) = i := by omega
    rw [hmin] at h1
    exact absurd h1 (lt_irrefl _)

lemma argrelGreater_dominates {data : List ℚ} {order i : ℕ}
    (hi : i ∈ argrelGreater data order) {j : ℕ} (hj : j < data.length) (hne : j ≠ i)
    (hlo : i ≤ j + order) (hhi : j ≤ i + order) : data.getD j 0 < data.getD i 0 := by
  obtain ⟨hilt, hp⟩ := mem_argrelGreater.1 hi
  rw [isPeakAt_iff] at hp
  rcases Nat.lt_or_ge j i with hji | hij
  · have hk : i - j - 1 < order := by omega
    have heq : i - (i - j - 1 + 1) = j := by omega
    have := (hp _ hk).2
    rwa [heq] at this
  · have hij' : i < j := by omega
    have hk : j - i - 1 < order := by omega
    have heq : min (i + (j - i - 1 + 1)) (data.length - 1) = j := by omega
    have := (hp _ hk).1
    rwa [heq] at this

lemma argrelLess_dominates {data : List ℚ} {order i : ℕ}
    (hi : i ∈ argrelLess data order) {j : ℕ} (hj : j < data.length) (hne : j ≠ i)
    (hlo : i ≤ j + order) (hhi : j ≤ i + order) : data.getD i 0 < data.getD j 0 := by
  obtain ⟨hilt, hp⟩ := mem_argrelLess.1 hi
  rw [isTroughAt_iff] at hp
  rcases Nat.lt_or_ge j i with hji | hij
  · have hk : i - j - 1 < order := by omega
    have heq : i - (i - j - 1 + 1) = j := by omega
    have := (hp _ hk).2
    rwa [heq] at this
  · have hij' : i < j := by omega
    have hk : j - i - 1 < order := by omega
    have heq : min (i + (j - i - 1 + 1)) (data.length - 1) = j := by omega
    have := (hp _ hk).1
    rwa [heq] at this

lemma argrelGreater_sorted (data : List ℚ) (order : ℕ) :
    (argrelGreater data order).Pairwise (· < ·) :=
  (List.pairwise_lt_range _).filter _

lemma argrelLess_sorted (data : List ℚ) (order : ℕ) :
    (argrelLess data order).Pairwise (· < ·) :=
  (List.pairwise_lt_range _).filter _

lemma argrelGreater_gap {data : List ℚ} {order i j : ℕ}
    (hi : i ∈ argrelGreater data order) (hj : j ∈ argrelGreater data order)
    (hij : i < j) : i + order < j := by
  by_contra h
  push_neg at h
  have hjn : j < data.length := (mem_argrelGreater.1 hj).1
  have hin : i < data.length := (mem_argrelGreater.1 hi).1
  have h1 := argrelGreater_dominates hi hjn (by omega) (by omega) h
  have h2 := argrelGreater_dominates hj hin (by omega) (by omega) (by omega)
  exact absurd h1 (not_lt.2 (le_of_lt h2))

lemma argrelLess_gap {data : List ℚ} {order i j : ℕ}
    (hi : i ∈ argrelLess data order) (hj : j ∈ argrelLess data order)
    (hij : i < j) : i + order < j := by
  by_contra h
  push_neg at h
  have hjn : j < data.length := (mem_argrelLess.1 hj).1
  have hin : i < data.length := (mem_argrelLess.1 hi).1
  have h1 := argrelLess_dominates hi hjn (by omega) (by omega) h
  have h2 := argrelLess_dominates hj hin (by omega) (by omega) (by omega)
  exact absurd h1 (not_lt.2 (le_of_lt h2))

lemma find_peaks_coe (data : List ℚ) (order : ℕ) (h : 1 ≤ order) :
    find_peaks data (order : ℤ) = argrelGreater data order := by
  have : ¬ ((order : ℤ) < 1) := by exact_mod_cast not_lt.2 h
  simp [find_peaks, this]

lemma find_troughs_coe (data : List ℚ) (order : ℕ) (h : 1 ≤ order) :
    find_troughs data (order : ℤ) = argrelLess data order := by
  have : ¬ ((order : ℤ) < 1) := by exact_mod_cast not_lt.2 h
  simp [find_troughs, this]

/-! ## Lemmas about the scoring primitives -/

lemma pyRound_ge {a : ℤ} {q : ℚ} (ha : (a : ℚ) ≤ q) : a ≤ pyRound q := by
  have hf : a ≤ ⌊q⌋ := Int.le_floor.2 ha
  simp only [pyRound]
  split_ifs <;> omega

lemma pyRound_le {b : ℤ} {q : ℚ} (hb : q ≤ (b : ℚ)) : pyRound q ≤ b := by
  have hfb : ⌊q⌋ ≤ b := by
    have := Int.floor_le_floor hb
    simpa using this
  have hfl : (⌊q⌋ : ℚ) ≤ q := Int.floor_le q
  simp only [pyRound]
  split_ifs with h1 h2 h3
  · exact hfb
  · have hq : (⌊q⌋ : ℚ) + 1/2 ≤ (b : ℚ) := by linarith [not_lt.1 h1]
    have : (⌊q⌋ : ℚ) < (b : ℚ) := by linarith
    have : ⌊q⌋ < b := by exact_mod_cast this
    omega
  · exact hfb
  · have hq : (⌊q⌋ : ℚ) + 1/2 ≤ (b : ℚ) := by linarith [not_lt.1 h1]
    have : (⌊q⌋ : ℚ) < (b : ℚ) := by linarith
    have : ⌊q⌋ < b := by exact_mod_cast this
    omega

lemma normalize_pct_40_bounds (x : Option ℚ) :
    0 ≤ normalize_pct x 40 ∧ normalize_pct x 40 ≤ 100 := by
  cases x with
  | none => norm_num [normalize_pct]
  | some v =>
    simp only [normalize_pct]
    have h1 : (-40 : ℚ) ≤ max (-40 : ℚ) (min 40 v) := le_max_left _ _
    have h2 : max (-40 : ℚ) (min 40 v) ≤ 40 := max_le (by norm_num) (min_le_left _ _)
    constructor <;> linarith

lemma ratio_to_score_bounds (r : Option ℚ) :
    0 ≤ ratio_to_score r ∧ ratio_to_score r ≤ 100 := by
  cases r with
  | none => norm_num [ratio_to_score]
  | some v =>
    simp only [ratio_to_score]
    split_ifs with h1 h2
    · norm_num
    · have hx : 0 ≤ (max (1/5 : ℚ) (min 5 v) - 1) / 4 * 50 := by linarith
      have hmin : (0:ℚ) ≤ min 50 ((max (1/5 : ℚ) (min 5 v) - 1) / 4 * 50) :=
        le_min (by norm_num) hx
      have hle : min (50:ℚ) ((max (1/5 : ℚ) (min 5 v) - 1) / 4 * 50) ≤ 50 := min_le_left _ _
      constructor <;> linarith
    · have hc : max (1/5 : ℚ) (min 5 v) < 1 := not_le.1 h2
      have hy : 0 ≤ (1 - max (1/5 : ℚ) (min 5 v)) / (4/5) * 50 := by linarith
      have hmin : (0:ℚ) ≤ min 50 ((1 - max (1/5 : ℚ) (min 5 v)) / (4/5) * 50) :=
        le_min (by norm_num) hy
      have hle : min (50:ℚ) ((1 - max (1/5 : ℚ) (min 5 v)) / (4/5) * 50) ≤ 50 := min_le_left _ _
      constructor <;> linarith

lemma funding_pair_fst (bias : String) : (funding_pair bias).1 = funding_score_spec bias := by
  unfold funding_pair funding_score_spec
  split_ifs <;> rfl

lemma funding_score_spec_bounds (bias : String) :
    40 ≤ funding_score_spec bias ∧ funding_score_spec bias ≤ 68 := by
  unfold funding_score_spec
  split_ifs <;> norm_num

lemma liq_pair_fst (m : MarketMetrics) :
    (liq_pair m).1 = liquidation_score_spec m.liq_24h_long_usd m.liq_24h_short_usd := by
  simp only [liq_pair, liquidation_score_spec]
  by_cases h : m.liq_24h_long_usd.getD 0 ≠ 0 ∨ m.liq_24h_short_usd.getD 0 ≠ 0
  · rw [if_pos h]
    split_ifs <;> rfl
  · rw [if_neg h]
    push_neg at h
    rw [h.1, h.2]
    norm_num

lemma liquidation_score_spec_bounds (a b : Option ℚ) :
    42 ≤ liquidation_score_spec a b ∧ liquidation_score_spec a b ≤ 58 := by
  simp only [liquidation_score_spec]
  split_ifs <;> norm_num

/-! ## Concrete data used by scenario theorems and witnesses -/

/-- The spec's concrete double-top scenario: 20 bars whose highs make bars
3 and 15 the only local highs, at prices 100 and (201/2). -/
def h20 : List ℚ := [90, 91, 92, 100, 93, 92, 91, 90, 89, 90, 91, 92, 93, 94, 95, (201/2), 96, 95, 94, 93]

/-- The scenario frame: lows/opens/closes derived positively from the
highs (their exact values are irrelevant to the double-top scan). -/
def df20 : List Bar := h20.map (fun h => ⟨h - 1, h, h - 2, h - 1⟩)

/-- A tiny frame with a zero-range bar at index 1 and a hammer at index 2. -/
def dfZeroRange : List Bar :=
  [⟨10, 11, 9, 21/2⟩, ⟨5, 5, 5, 5⟩, ⟨10, 1014/100, 7, 101/10⟩]

/-- A tiny frame used to exhibit the silently-swallowed invalid
configuration. -/
def dfSmall : List Bar := [⟨1, 2, 1/2, 3/2⟩, ⟨3/2, 3, 1, 2⟩, ⟨2, 4, 3/2, 3⟩]

/-! ## Claim theorems -/

/-- C2 (amended): for every series and every `order ≥ 1`, the peak finder
returns only indices whose value strictly exceeds every in-range value
within `order` positions on either side, the indices are strictly
ascending, and every returned index lies in `[1, len-2]` — but (per the
counterexample) an index may lie closer than `order` to the boundary, and
a series shorter than `2*order+1` may still yield peaks. -/
theorem find_peaks_amended (data : List ℚ) (order : ℕ) (hord : 1 ≤ order) :
    (find_peaks data (order : ℤ)).Pairwise (· < ·) ∧
    ∀ i ∈ find_peaks data (order : ℤ),
      (1 ≤ i ∧ i + 1 < data.length) ∧
      ∀ j < data.length, j ≠ i → i ≤ j + order → j ≤ i + order →
        data.getD j 0 < data.getD i 0 := by
  rw [find_peaks_coe data order hord]
  refine ⟨argrelGreater_sorted data order, ?_⟩
  intro i hi
  refine ⟨argrelGreater_interior hord hi, ?_⟩
  intro j hj hne hlo hhi
  exact argrelGreater_dominates hi hj hne hlo hhi

/-- Witness for C2's amended theorem at a concrete series. -/
theorem find_peaks_amended_witness :
    (1 ≤ 5) ∧
    ((find_peaks h20 ((5 : ℕ) : ℤ)).Pairwise (· < ·) ∧
     ∀ i ∈ find_peaks h20 ((5 : ℕ) : ℤ),
       (1 ≤ i ∧ i + 1 < h20.length) ∧
       ∀ j < h20.length, j ≠ i → i ≤ j + 5 → j ≤ i + 5 →
         h20.getD j 0 < h20.getD i 0) :=
  ⟨by norm_num, find_peaks_amended h20 5 (by norm_num)⟩

/-- C2 (counterexample): with the default `order = 5`, the series
`[0, 5, 1, 1, 1, 1, 1, 1]` (length 8 < 2*5+1) yields the peak index 1,
which lies below `order`; scipy's `clip` boundary mode replaces
out-of-range neighbours by the clipped boundary comparison instead of
excluding boundary points. -/
theorem find_peaks_boundary_cex :
    find_peaks [0, 5, 1, 1, 1, 1, 1, 1] 5 = [1] ∧
    (1 : ℕ) < 5 ∧
    ([0, 5, 1, 1, 1, 1, 1, 1] : List ℚ).length < 2 * 5 + 1 := by
  refine ⟨by decide, by decide, by decide⟩

/-- C3: on the spec's 20-bar scenario (only local highs at bars 3 and 15,
prices 100 and (201/2), i.e. 0.5% apart with default threshold 2% and 12 ≥ 5
bars separation), `find_double_top` returns exactly one record with
`first_top = 3` and `second_top = 15`. -/
theorem double_top_scenario :
    find_double_top df20 (2/100) = [⟨3, 15, 100, 1/200⟩] := by with_unfolding_all decide

/-- C4: an invalid configuration is swallowed, not signalled.  A negative
`order` makes scipy raise `ValueError`, but the bare `except` in
`_find_peaks`/`_find_troughs` silently returns the normal empty result;
likewise `find_triangle_patterns` with `window = 0` silently returns `[]`
(the per-window `except` swallows `np.polyfit`'s error on the empty
segment). -/
theorem invalid_config_silently_empty :
    find_peaks [1, 2, 3] (-1) = [] ∧
    find_troughs [1, 2, 3] (-1) = [] ∧
    find_peaks [1, 2, 3] 0 = [] ∧
    find_triangle_patterns dfSmall 0 = [] := by decide

/-- C1: for every `MarketMetrics` record (any combination of null and
non-null fields, including all-null) the composite alpha score equals the
spec's weighted formula (`round` being Python's half-to-even `round`), the
result is an integer in `[0, 100]`, and the label is BULLISH iff
`score ≥ 60`, BEARISH iff `score ≤ 40`, NEUTRAL otherwise — in particular
at the boundary scores 40, 41, 59, 60. -/
theorem composite_alpha_ok (m : MarketMetrics) :
    (compose_alpha m).1 = composite_score_spec m ∧
    0 ≤ (compose_alpha m).1 ∧ (compose_alpha m).1 ≤ 100 ∧
    ((compose_alpha m).2.1 = "BULLISH" ↔ 60 ≤ (compose_alpha m).1) ∧
    ((compose_alpha m).2.1 = "BEARISH" ↔ (compose_alpha m).1 ≤ 40) ∧
    ((compose_alpha m).2.1 = "NEUTRAL" ↔
      40 < (compose_alpha m).1 ∧ (compose_alpha m).1 < 60) := by
  have hfst : (compose_alpha m).1 = composite_score_spec m := by
    simp only [compose_alpha, composite_score_spec, funding_pair_fst, liq_pair_fst]
  have hscore : (compose_alpha m).1 = pyRound
      ((30/100) * normalize_pct m.oi_change_24h_pct 40
        + (25/100) * funding_score_spec (bias_from_funding m.funding_rate_8h)
        + (25/100) * ((ratio_to_score m.ls_accounts + ratio_to_score m.ls_positions) / 2)
        + (20/100) * liquidation_score_spec m.liq_24h_long_usd m.liq_24h_short_usd) := by
    rw [hfst]; rfl
  obtain ⟨ho1, ho2⟩ := normalize_pct_40_bounds m.oi_change_24h_pct
  obtain ⟨ha1, ha2⟩ := ratio_to_score_bounds m.ls_accounts
  obtain ⟨hp1, hp2⟩ := ratio_to_score_bounds m.ls_positions
  obtain ⟨hf1, hf2⟩ := funding_score_spec_bounds (bias_from_funding m.funding_rate_8h)
  obtain ⟨hl1, hl2⟩ := liquidation_score_spec_bounds m.liq_24h_long_usd m.liq_24h_short_usd
  have hb0 : 0 ≤ (compose_alpha m).1 := by
    rw [hscore]; exact pyRound_ge (by push_cast; linarith)
  have hb100 : (compose_alpha m).1 ≤ 100 := by
    rw [hscore]; exact pyRound_le (by push_cast; linarith)
  have hlab : (compose_alpha m).2.1 =
      (if 60 ≤ (compose_alpha m).1 then "BULLISH"
       else if (compose_alpha m).1 ≤ 40 then "BEARISH" else "NEUTRAL") := by
    simp only [compose_alpha]
  refine ⟨hfst, hb0, hb100, ?_, ?_, ?_⟩ <;>
    (rw [hlab]; split_ifs with h1 h2 <;> simp_all <;> omega)

/-- C6 (counterexample): `_ratio_to_score` is not monotone non-decreasing
over its whole domain: the input 0 maps to the neutral 50 while the larger
input 1/2 maps to 18.75. -/
theorem ratio_to_score_monotone_cex :
    (0 : ℚ) < 1/2 ∧ ratio_to_score (some 0) = 50 ∧ ratio_to_score (some (1/2)) = 75/4 ∧
    ¬ (ratio_to_score (some 0) ≤ ratio_to_score (some (1/2))) := by
  refine ⟨by norm_num, by with_unfolding_all decide, by with_unfolding_all decide,
    by with_unfolding_all decide⟩

/-- C6 (amended): `ratio_to_score(1) = 50`, `ratio_to_score(None) = 50`,
null or non-positive input yields 50, the input is clamped to `[0.2, 5]`
and mapped linearly onto `[50,100]` over `[1,5]` and onto `[0,50]` over
`[0.2,1]`; the function is monotone non-decreasing on positive inputs
(not on all inputs, by the counterexample). -/
theorem ratio_to_score_amended :
    ratio_to_score (some 1) = 50 ∧ ratio_to_score none = 50 ∧
    (∀ r : ℚ, r ≤ 0 → ratio_to_score (some r) = 50) ∧
    (∀ r : ℚ, 1 ≤ r → r ≤ 5 → ratio_to_score (some r) = 50 + (r - 1) / 4 * 50) ∧
    (∀ r : ℚ, 1/5 ≤ r → r < 1 → ratio_to_score (some r) = 50 - (1 - r) / (4/5) * 50) ∧
    (∀ r : ℚ, 5 ≤ r → ratio_to_score (some r) = 100) ∧
    (∀ r : ℚ, 0 < r → r ≤ 1/5 → ratio_to_score (some r) = 0) ∧
    (∀ r1 r2 : ℚ, 0 < r1 → r1 ≤ r2 →
      ratio_to_score (some r1) ≤ ratio_to_score (some r2)) := by
  have key : ∀ r : ℚ, 0 < r → ratio_to_score (some r) =
      (if 1 ≤ max (1/5 : ℚ) (min 5 r) then 50 + min 50 ((max (1/5 : ℚ) (min 5 r) - 1) / 4 * 50)
       else 50 - min 50 ((1 - max (1/5 : ℚ) (min 5 r)) / (4/5) * 50)) := by
    intro r hr
    simp only [ratio_to_score]
    rw [if_neg (not_le.2 hr)]
  refine ⟨by with_unfolding_all decide, rfl, ?_, ?_, ?_, ?_, ?_, ?_⟩
  · intro r hr
    simp only [ratio_to_score, if_pos hr]
  · intro r h1 h5
    rw [key r (by linarith)]
    have hcl : max (1/5 : ℚ) (min 5 r) = r := by
      rw [min_eq_right h5, max_eq_right (by linarith)]
    rw [hcl, if_pos h1, min_eq_right (by linarith)]
  · intro r h02 h1
    rw [key r (by linarith)]
    have hcl : max (1/5 : ℚ) (min 5 r) = r := by
      rw [min_eq_right (by linarith), max_eq_right h02]
    rw [hcl, if_neg (not_le.2 h1), min_eq_right (by linarith)]
  · intro r h5
    rw [key r (by linarith)]
    have hcl : max (1/5 : ℚ) (min 5 r) = 5 := by
      rw [min_eq_left h5, max_eq_right (by norm_num)]
    rw [hcl, if_pos (by norm_num), min_eq_left (by norm_num)]
    norm_num
  · intro r h0 h02
    rw [key r h0]
    have hcl : max (1/5 : ℚ) (min 5 r) = 1/5 := by
      rw [min_eq_right (by linarith), max_eq_left h02]
    rw [hcl, if_neg (by norm_num), min_eq_right (by norm_num)]
    norm_num
  · intro r1 r2 h0 h12
    rw [key r1 h0, key r2 (by linarith)]
    set c1 := max (1/5 : ℚ) (min 5 r1) with hc1
    set c2 := max (1/5 : ℚ) (min 5 r2) with hc2
    have hcc : c1 ≤ c2 := max_le_max le_rfl (min_le_min le_rfl h12)
    have hb1 : (1/5 : ℚ) ≤ c1 := le_max_left _ _
    have hb2 : c2 ≤ 5 := max_le (by norm_num) (min_le_left _ _)
    split_ifs with g1 g2 g2
    · have : (c1 - 1) / 4 * 50 ≤ (c2 - 1) / 4 * 50 := by linarith
      have := min_le_min (le_refl (50:ℚ)) this
      linarith
    · exact absurd (le_trans g1 hcc) g2
    · have hx : 0 ≤ (c2 - 1) / 4 * 50 := by linarith
      have hy : 0 ≤ (1 - c1) / (4/5) * 50 := by
        have : c1 < 1 := not_le.1 g1
        linarith
      have h1 : (0:ℚ) ≤ min 50 ((1 - c1) / (4/5) * 50) := le_min (by norm_num) hy
      have h2 : (0:ℚ) ≤ min 50 ((c2 - 1) / 4 * 50) := le_min (by norm_num) hx
      linarith
    · have : (1 - c2) / (4/5) * 50 ≤ (1 - c1) / (4/5) * 50 := by linarith
      have := min_le_min (le_refl (50:ℚ)) this
      linarith

/-- C7 (counterexample): a sub-score at its neutral value can still append
a reason: with every metric null all four sub-scores are at their neutral
value 50, yet the reasons list is `["Funding netral"]`, not empty. -/
theorem compose_alpha_reasons_cex :
    (compose_alpha ⟨none, none, none, none, none, none, none⟩).2.2 = ["Funding netral"] ∧
    (compose_alpha ⟨none, none, none, none, none, none, none⟩).2.2 ≠ [] ∧
    normalize_pct none 40 = 50 ∧
    funding_score_spec (bias_from_funding none) = 50 ∧
    (ratio_to_score none + ratio_to_score none) / 2 = 50 ∧
    liquidation_score_spec none none = 50 := by
  refine ⟨by with_unfolding_all decide, by with_unfolding_all decide,
    by norm_num [normalize_pct], rfl, by norm_num [ratio_to_score],
    by norm_num [liquidation_score_spec]⟩

/-- C7 (amended): the reasons list is exactly the concatenation, in the
fixed order OI → funding → ratio → liquidations, of at most one reason per
sub-component; the OI component appends iff its metric is present (even
when the change is 0, i.e. neutral), the funding component always appends
exactly one reason (a neutral notice when funding is null/zero), the ratio
component appends iff at least one ratio is present, and the liquidation
component appends iff some liquidation volume is nonzero. -/
theorem compose_alpha_reasons_structure (m : MarketMetrics) :
    (compose_alpha m).2.2 =
      oi_reasons m ++ [(funding_pair (bias_from_funding m.funding_rate_8h)).2] ++
        ls_reasons m ++ (liq_pair m).2 ∧
    (oi_reasons m).length ≤ 1 ∧ (ls_reasons m).length ≤ 1 ∧ (liq_pair m).2.length ≤ 1 ∧
    (oi_reasons m = [] ↔ m.oi_change_24h_pct = none) ∧
    (ls_reasons m = [] ↔ (m.ls_accounts = none ∧ m.ls_positions = none)) ∧
    ((liq_pair m).2 = [] ↔
      (m.liq_24h_long_usd.getD 0 = 0 ∧ m.liq_24h_short_usd.getD 0 = 0)) := by
  refine ⟨rfl, ?_, ?_, ?_, ?_, ?_, ?_⟩
  · cases h : m.oi_change_24h_pct <;> simp [oi_reasons, h]
  · simp only [ls_reasons]
    split_ifs <;> simp
  · simp only [liq_pair]
    split_ifs <;> simp
  · cases h : m.oi_change_24h_pct <;> simp [oi_reasons, h]
  · simp only [ls_reasons]
    split_ifs with h
    · simp only [List.cons_ne_nil, false_iff]
      tauto
    · push_neg at h
      simp [h.1, h.2]
  · simp only [liq_pair]
    split_ifs with h h1 h2 <;> simp_all <;> tauto

/-- C8: for a top-trader position-ratio series of length 0 or 1 the
smart-money computation treats `delta_share_pp` as null, the normalized
share component contributes exactly 0, and the resulting score still lies
in `[0, 100]` (the embedding is a total function: no exception path
exists). -/
theorem smart_money_short_series (oi : Option ℚ) (s : List ℚ)
    (fr ll ls : Option ℚ) (h : s.length ≤ 1) :
    (smart_money_flow oi s fr ll ls).delta_long_share_pp = none ∧
    (smart_money_flow oi s fr ll ls).share_norm = 0 ∧
    0 ≤ (smart_money_flow oi s fr ll ls).score ∧
    (smart_money_flow oi s fr ll ls).score ≤ 100 := by
  have hprev : ¬ (2 ≤ s.length) := by omega
  have hdelta : (smart_money_flow oi s fr ll ls).delta_long_share_pp = none := by
    simp only [smart_money_flow, if_neg hprev]
    cases s.getLast? with
    | none => rfl
    | some r =>
      by_cases hr : 0 < r <;> simp [hr]
  refine ⟨hdelta, ?_, ?_, ?_⟩
  · simp only [smart_money_flow, if_neg hprev] at hdelta ⊢
    cases hg : s.getLast? with
    | none => rfl
    | some r =>
      simp only [hg] at hdelta ⊢
      by_cases hr : 0 < r <;> simp_all
  · simp only [smart_money_flow]
    positivity
  · simp only [smart_money_flow]
    exact max_le (by norm_num) (min_le_left _ _)

/-- Witness for C8 at the concrete empty series. -/
theorem smart_money_short_series_witness :
    ([] : List ℚ).length ≤ 1 ∧
    ((smart_money_flow (some 10) [] (some (1/50)) none none).delta_long_share_pp = none ∧
     (smart_money_flow (some 10) [] (some (1/50)) none none).share_norm = 0 ∧
     0 ≤ (smart_money_flow (some 10) [] (some (1/50)) none none).score ∧
     (smart_money_flow (some 10) [] (some (1/50)) none none).score ≤ 100) :=
  ⟨by decide, smart_money_short_series (some 10) [] (some (1/50)) none none (by decide)⟩

/-! ## Support lemmas for the head-and-shoulders refinement -/

lemma getD_mem_of_lt {α : Type} {l : List α} {d : α} {k : ℕ} (h : k < l.length) :
    l.getD k d ∈ l := by
  rw [List.getD_eq_getElem l d h]
  exact List.getElem_mem h

lemma sorted_getD_lt {l : List ℕ} (hp : l.Pairwise (· < ·)) {a b : ℕ}
    (ha : a < l.length) (hb : b < l.length) (hab : a < b) : l.getD a 0 < l.getD b 0 := by
  rw [List.getD_eq_getElem l 0 ha, List.getD_eq_getElem l 0 hb]
  exact List.pairwise_iff_getElem.1 hp a b ha hb hab

lemma map_getD_pos {f : Bar → ℚ} {df : List Bar} (hpos : ∀ b ∈ df, 0 < f b) {k : ℕ}
    (hk : k < (df.map f).length) : 0 < (df.map f).getD k 0 := by
  obtain ⟨b, hb, hbe⟩ := List.mem_map.1 (getD_mem_of_lt hk)
  rw [← hbe]
  exact hpos b hb

lemma fdivLT_pos_iff {num den c : ℚ} (h : 0 < den) :
    fdivLT num den c = true ↔ num / den < c := by
  unfold fdivLT
  rw [if_neg h.ne']
  exact decide_eq_true_iff

/-- C5: with positive prices, the head-and-shoulders matcher and its
inverse emit a consecutive extremum triple exactly under the spec's
condition — middle peak strictly higher (trough strictly lower) than both
outer ones, outer pair within `threshold` relative difference, and
extrema at least 5 bars apart (the bar-separation conditions hold
automatically because order-5 extrema are always more than 5 bars
apart). -/
theorem head_shoulders_iff_spec (df : List Bar) (θ : ℚ)
    (hposH : ∀ b ∈ df, 0 < b.high) (hposL : ∀ b ∈ df, 0 < b.low) :
    find_head_and_shoulders df θ = find_head_and_shoulders_spec df θ ∧
    find_inverse_head_shoulders df θ = find_inverse_head_shoulders_spec df θ := by
  have hco : find_peaks (highs df) 5 = argrelGreater (highs df) 5 :=
    find_peaks_coe (highs df) 5 (by norm_num)
  have hco' : find_troughs (lows df) 5 = argrelLess (lows df) 5 :=
    find_troughs_coe (lows df) 5 (by norm_num)
  constructor
  · simp only [find_head_and_shoulders, find_head_and_shoulders_spec]
    by_cases h15 : df.length < 15
    · simp [h15]
    · simp only [if_neg h15]
      by_cases h3 : (find_peaks (highs df) 5).length < 3
      · simp [h3]
      · simp only [if_neg h3]
        apply List.filterMap_congr
        intro i hi
        rw [List.mem_range] at hi
        have hi0 : i < (find_peaks (highs df) 5).length := by omega
        have hi1 : i + 1 < (find_peaks (highs df) 5).length := by omega
        have hi2 : i + 2 < (find_peaks (highs df) 5).length := by omega
        have hm0 : (find_peaks (highs df) 5).getD i 0 ∈ argrelGreater (highs df) 5 := by
          rw [← hco]; exact getD_mem_of_lt hi0
        have hm1 : (find_peaks (highs df) 5).getD (i+1) 0 ∈ argrelGreater (highs df) 5 := by
          rw [← hco]; exact getD_mem_of_lt hi1
        have hm2 : (find_peaks (highs df) 5).getD (i+2) 0 ∈ argrelGreater (highs df) 5 := by
          rw [← hco]; exact getD_mem_of_lt hi2
        have hsorted : (find_peaks (highs df) 5).Pairwise (· < ·) := by
          rw [hco]; exact argrelGreater_sorted _ _
        have h01 : (find_peaks (highs df) 5).getD i 0 <
            (find_peaks (highs df) 5).getD (i+1) 0 :=
          sorted_getD_lt hsorted hi0 hi1 (by omega)
        have h12 : (find_peaks (highs df) 5).getD (i+1) 0 <
            (find_peaks (highs df) 5).getD (i+2) 0 :=
          sorted_getD_lt hsorted hi1 hi2 (by omega)
        have hgap2 : (find_peaks (highs df) 5).getD (i+1) 0 + 5 <
            (find_peaks (highs df) 5).getD (i+2) 0 :=
          argrelGreater_gap hm1 hm2 h12
        have hidx0 : (find_peaks (highs df) 5).getD i 0 < (highs df).length :=
          (mem_argrelGreater.1 hm0).1
        have hlpos : 0 < (highs df).getD ((find_peaks (highs df) 5).getD i 0) 0 :=
          map_getD_pos hposH hidx0
        refine if_congr ?_ rfl rfl
        constructor
        · rintro ⟨ha, hb, hc, hd⟩
          exact ⟨ha, hb, (fdivLT_pos_iff hlpos).1 hc, hd, by omega⟩
        · rintro ⟨ha, hb, hc, hd, he⟩
          exact ⟨ha, hb, (fdivLT_pos_iff hlpos).2 hc, hd⟩
  · simp only [find_inverse_head_shoulders, find_inverse_head_shoulders_spec]
    by_cases h15 : df.length < 15
    · simp [h15]
    · simp only [if_neg h15]
      by_cases h3 : (find_troughs (lows df) 5).length < 3
      · simp [h3]
      · simp only [if_neg h3]
        apply List.filterMap_congr
        intro i hi
        rw [List.mem_range] at hi
        have hi0 : i < (find_troughs (lows df) 5).length := by omega
        have hi1 : i + 1 < (find_troughs (lows df) 5).length := by omega
        have hi2 : i + 2 < (find_troughs (lows df) 5).length := by omega
        have hm0 : (find_troughs (lows df) 5).getD i 0 ∈ argrelLess (lows df) 5 := by
          rw [← hco']; exact getD_mem_of_lt hi0
        have hm1 : (find_troughs (lows df) 5).getD (i+1) 0 ∈ argrelLess (lows df) 5 := by
          rw [← hco']; exact getD_mem_of_lt hi1
        have hm2 : (find_troughs (lows df) 5).getD (i+2) 0 ∈ argrelLess (lows df) 5 := by
          rw [← hco']; exact getD_mem_of_lt hi2
        have hsorted : (find_troughs (lows df) 5).Pairwise (· < ·) := by
          rw [hco']; exact argrelLess_sorted _ _
        have h01 : (find_troughs (lows df) 5).getD i 0 <
            (find_troughs (lows df) 5).getD (i+1) 0 :=
          sorted_getD_lt hsorted hi0 hi1 (by omega)
        have h12 : (find_troughs (lows df) 5).getD (i+1) 0 <
            (find_troughs (lows df) 5).getD (i+2) 0 :=
          sorted_getD_lt hsorted hi1 hi2 (by omega)
        have hgap1 : (find_troughs (lows df) 5).getD i 0 + 5 <
            (find_troughs (lows df) 5).getD (i+1) 0 :=
          argrelLess_gap hm0 hm1 h01
        have hgap2 : (find_troughs (lows df) 5).getD (i+1) 0 + 5 <
            (find_troughs (lows df) 5).getD (i+2) 0 :=
          argrelLess_gap hm1 hm2 h12
        have hidx0 : (find_troughs (lows df) 5).getD i 0 < (lows df).length :=
          (mem_argrelLess.1 hm0).1
        have hlpos : 0 < (lows df).getD ((find_troughs (lows df) 5).getD i 0) 0 :=
          map_getD_pos hposL hidx0
        refine if_congr ?_ rfl rfl
        constructor
        · rintro ⟨ha, hb, hc⟩
          exact ⟨ha, hb, (fdivLT_pos_iff hlpos).1 hc, by omega, by omega⟩
        · rintro ⟨ha, hb, hc, hd, he⟩
          exact ⟨ha, hb, (fdivLT_pos_iff hlpos).2 hc⟩

/-- A 25-bar positive-price frame whose highs have exactly three order-5
peaks at 3, 10, 17 (prices 100, 105, 100.5) forming a head-and-shoulders. -/
def df25 : List Bar :=
  [⟨89, 90, 88, 89⟩, ⟨90, 91, 89, 90⟩, ⟨91, 92, 90, 91⟩, ⟨99, 100, 98, 99⟩,
   ⟨92, 93, 91, 92⟩, ⟨91, 92, 90, 91⟩, ⟨90, 91, 89, 90⟩, ⟨91, 92, 90, 91⟩,
   ⟨92, 93, 91, 92⟩, ⟨93, 94, 92, 93⟩, ⟨104, 105, 103, 104⟩, ⟨93, 94, 92, 93⟩,
   ⟨92, 93, 91, 92⟩, ⟨91, 92, 90, 91⟩, ⟨92, 93, 91, 92⟩, ⟨93, 94, 92, 93⟩,
   ⟨94, 95, 93, 94⟩, ⟨99, 201/2, 197/2, 99⟩, ⟨95, 96, 94, 95⟩, ⟨94, 95, 93, 94⟩,
   ⟨93, 94, 92, 93⟩, ⟨92, 93, 91, 92⟩, ⟨91, 92, 90, 91⟩, ⟨90, 91, 89, 90⟩,
   ⟨89, 90, 88, 89⟩]

/-- Witness for C5 at a concrete positive-price frame containing an actual
head-and-shoulders formation. -/
theorem head_shoulders_iff_spec_witness :
    (∀ b ∈ df25, 0 < b.high) ∧ (∀ b ∈ df25, 0 < b.low) ∧
    (find_head_and_shoulders df25 (2/100) = find_head_and_shoulders_spec df25 (2/100) ∧
     find_inverse_head_shoulders df25 (2/100) =
       find_inverse_head_shoulders_spec df25 (2/100)) :=
  ⟨by with_unfolding_all decide, by with_unfolding_all decide,
   head_shoulders_iff_spec df25 (2/100) (by with_unfolding_all decide)
     (by with_unfolding_all decide)⟩

/-! ## Zero-range bars in the candlestick matchers -/

lemma hammer_at_some {df : List Bar} {i : ℕ} {rec : HammerRec}
    (h : hammer_at df i = some rec) :
    rec.index = i ∧ (df.getD i default).high ≠ (df.getD i default).low := by
  simp only [hammer_at] at h
  by_cases h0 : (df.getD i default).high - (df.getD i default).low = 0
  · rw [if_pos h0] at h
    cases h
  · rw [if_neg h0] at h
    have hne := sub_ne_zero.1 h0
    split_ifs at h <;> cases h <;> exact ⟨rfl, hne⟩

lemma doji_at_some {df : List Bar} {i : ℕ} {rec : IdxTypeRec}
    (h : doji_at df i = some rec) :
    rec.index = i ∧ (df.getD i default).high ≠ (df.getD i default).low := by
  simp only [doji_at] at h
  by_cases h0 : (df.getD i default).high - (df.getD i default).low = 0
  · rw [if_pos h0] at h
    cases h
  · rw [if_neg h0] at h
    have hne := sub_ne_zero.1 h0
    split_ifs at h <;> cases h <;> exact ⟨rfl, hne⟩

/-- C9: a zero-range bar (`high == low`) is skipped by both the hammer and
the doji matcher: no detection carries its index, while the rest of the
series is still scanned bar by bar (the embedding is a total function, so
no division error can abort the scan). -/
theorem zero_range_bar_skipped (df : List Bar) (i : ℕ) (hi : i < df.length)
    (hz : (df.getD i default).high = (df.getD i default).low) :
    (∀ rec ∈ find_hammer_patterns df, rec.index ≠ i) ∧
    (∀ rec ∈ find_doji_patterns df, rec.index ≠ i) := by
  constructor
  · intro rec hrec
    simp only [find_hammer_patterns] at hrec
    split_ifs at hrec with hlen
    · simp at hrec
    · obtain ⟨j, hj, hsome⟩ := List.mem_filterMap.1 hrec
      obtain ⟨hidx, hne⟩ := hammer_at_some hsome
      rw [hidx]
      rintro rfl
      exact hne hz
  · intro rec hrec
    simp only [find_doji_patterns] at hrec
    split_ifs at hrec with hlen
    · simp at hrec
    · obtain ⟨j, hj, hsome⟩ := List.mem_filterMap.1 hrec
      obtain ⟨hidx, hne⟩ := doji_at_some hsome
      rw [hidx]
      rintro rfl
      exact hne hz

/-- Witness for C9 at a concrete frame with a flat candle at index 1 (and
a hammer elsewhere, showing the rest of the series is still scanned). -/
theorem zero_range_bar_skipped_witness :
    (1 < dfZeroRange.length ∧
      (dfZeroRange.getD 1 default).high = (dfZeroRange.getD 1 default).low) ∧
    ((∀ rec ∈ find_hammer_patterns dfZeroRange, rec.index ≠ 1) ∧
     (∀ rec ∈ find_doji_patterns dfZeroRange, rec.index ≠ 1)) :=
  ⟨⟨by decide, by decide⟩,
   zero_range_bar_skipped dfZeroRange 1 (by decide) (by decide)⟩

/-! ## The pattern map's key set -/

/-- The fixed key list of `detect_all_patterns`, in insertion order. -/
def pattern_names : List String :=
  ["Double Tops", "Double Bottoms", "Head & Shoulders", "Triangles", "Hammers",
   "Triple Tops", "Triple Bottoms", "Rounding Bottom", "Cup & Handle",
   "Ascending Wedge", "Descending Wedge", "Rising Wedge", "Falling Wedge",
   "Flag Patterns", "Pennants", "Channels", "Bump & Run", "Dragon", "Inv H&S",
   "Adam & Eve", "Megaphone", "Dead Cat Bounce", "ABCD Pattern", "Rectangle",
   "Bullish Engulfing", "Bearish Engulfing", "Morning Star", "Evening Star",
   "Doji", "Shooting Star", "Piercing Pattern", "Dark Cloud", "3 White Soldiers",
   "3 Black Crows", "Tweezers", "Harami"]

/-- C10 (counterexample): the pattern map has 36 keys, not 37 — already on
the empty (degenerate) series. -/
theorem detect_all_key_count_cex :
    ((detect_all_patterns []).map Prod.fst).length = 36 ∧
    ((detect_all_patterns []).map Prod.fst).length ≠ 37 := ⟨rfl, by decide⟩

/-- C10 (amended): for every series — including empty and degenerate ones —
`detect_all_patterns` returns a map whose key sequence is exactly the fixed
duplicate-free list of 36 pattern names from 'Double Tops' through
'Harami'; every key is present and mapped to a (possibly empty) list, and
no key is ever omitted. -/
theorem detect_all_keys (df : List Bar) :
    (detect_all_patterns df).map Prod.fst = pattern_names ∧
    pattern_names.length = 36 ∧ pattern_names.Nodup :=
  ⟨rfl, rfl, by decide⟩

/-- Witness for C6's amended theorem: the universally quantified clauses
instantiated at concrete inputs. -/
theorem ratio_to_score_amended_witness :
    ((-1 : ℚ) ≤ 0 ∧ ratio_to_score (some (-1)) = 50) ∧
    ((0 : ℚ) < 2 ∧ (2 : ℚ) ≤ 3 ∧
      ratio_to_score (some 2) ≤ ratio_to_score (some 3)) := by
  obtain ⟨h1, h2, h3, h4, h5, h6, h7, h8⟩ := ratio_to_score_amended
  exact ⟨⟨by norm_num, h3 (-1) (by norm_num)⟩,
         ⟨by norm_num, by norm_num, h8 2 3 (by norm_num) (by norm_num)⟩⟩

end CryptoDetector
